/-
  Verification of the libwoofer decision core (filter pipeline, weighted
  selection and statistics engine) against its natural-language specification.

  The definitions below are a shallow embedding of the C sources:
    - src/statistics.c    (validators, update and modify-and-update functions)
    - src/intelligence.c  (filter stages, entry calculation, weighted draw)
    - src/song_manager.c  (history lists, played-song recording, trimming)

  Conventions of the embedding:
    - `gint` / `gint64` become `Int`; `guint32` artist hashes become `Nat`;
      `gdouble` becomes `ℚ` (exact rational arithmetic; every concrete value
      appearing in the claims is exactly representable in both).
    - A C cast `(gint)` of a nonnegative `gdouble` is `Int.floor`; for a
      possibly negative value it truncates toward zero, modelled by `ctrunc`.
    - `(gint)(r * sqrt x / a)` for nonnegative integers is modelled exactly as
      `Nat.sqrt (r^2 * x) / a`, using the identities `r * Real.sqrt x =
      Real.sqrt (r^2 * x)` and `⌊⌊y⌋ / a⌋ = ⌊y / a⌋`; at the magnitudes the
      curves are used with, the IEEE-double computation agrees with the exact
      real value.
    - `GList` becomes `List`; `g_list_remove` is `List.erase` (first match);
      the key/value `WfDList` of weighted entries becomes `List (WfSong × Int)`.
    - Songs are compared by value; a library holds pairwise distinct songs, so
      value equality coincides with the pointer identity used by `g_list_find`.
    - The random draw of `wf_intelligence_random` is injected as an explicit
      parameter, as is the wall-clock time `wf_utils_time_now`.
-/
import Mathlib

namespace Woofer

/-! ## Data model (src/song.h, src/intelligence.h) -/

/-- Song status, from `enum _WfSongStatus` in src/song.h. -/
inductive WfSongStatus where
  | unknown
  | available
  | playing
  | notFound
deriving DecidableEq, Repr

/-- A track with the fields the decision core reads, from `struct _WfSong`
(src/song_private.h) and its getters: identifier, status, artist hash and the
five mutable statistics. -/
structure WfSong where
  id : Nat
  status : WfSongStatus
  artistHash : Nat
  rating : Int
  score : ℚ
  playCount : Int
  skipCount : Int
  lastPlayed : Int
deriving DecidableEq, Repr

/-- Filter parameters, from `struct _WfSongFilter` in src/intelligence.h.
The `score_min` and `score_max` fields are `gint` in the source. -/
structure WfSongFilter where
  recent_artists : Int
  remove_recents_amount : Int
  remove_recents_percentage : ℚ
  use_rating : Bool
  use_score : Bool
  use_playcount : Bool
  use_skipcount : Bool
  use_lastplayed : Bool
  rating_inc_zero : Bool
  playcount_invert : Bool
  skipcount_invert : Bool
  lastplayed_invert : Bool
  rating_min : Int
  rating_max : Int
  score_min : Int
  score_max : Int
  playcount_th : Int
  skipcount_th : Int
  lastplayed_th : Int
deriving DecidableEq, Repr

/-- Probability-modifier parameters, from `struct _WfSongEntries` in
src/intelligence.h. -/
structure WfSongEntries where
  use_rating : Bool
  use_score : Bool
  use_playcount : Bool
  use_skipcount : Bool
  use_lastplayed : Bool
  invert_rating : Bool
  invert_score : Bool
  invert_playcount : Bool
  invert_skipcount : Bool
  invert_lastplayed : Bool
  use_default_rating : Int
  rating_multiplier : ℚ
  score_multiplier : ℚ
  playcount_multiplier : ℚ
  skipcount_multiplier : ℚ
  lastplayed_multiplier : ℚ
deriving DecidableEq, Repr

/-- Internal song-picker container, from `struct _WfIntelligenceContainer` in
src/intelligence.c (the `total_entries` field is kept separately as the sum of
the weighted-entry list). -/
structure WfIntelligenceContainer where
  default_rating : Int
  favor_low_ratings : Bool
  rating_factor : Int
  favor_low_scores : Bool
  score_factor : Int
  favor_low_playcount : Bool
  playcount_factor : Int
  favor_low_skipcount : Bool
  skipcount_factor : Int
  favor_low_lastplayed : Bool
  lastplayed_factor : Int
deriving DecidableEq, Repr

/-- Truncation toward zero of a rational, the behaviour of a C cast from
`gdouble` to `gint`. -/
def ctrunc (q : ℚ) : Int :=
  if 0 ≤ q then ⌊q⌋ else ⌈q⌉

/-! ## Statistics engine (src/statistics.c) -/

/-- `wf_stats_rating_is_valid`: rating valid iff in `[0, 100]`. -/
def wf_stats_rating_is_valid (rating : Int) : Bool :=
  0 ≤ rating && rating ≤ 100

/-- `wf_stats_score_is_valid`: score valid iff in `[0.0, 100.0]`. -/
def wf_stats_score_is_valid (score : ℚ) : Bool :=
  0 ≤ score && score ≤ 100

/-- `wf_stats_playcount_is_valid`: play count valid iff nonnegative. -/
def wf_stats_playcount_is_valid (playcount : Int) : Bool :=
  0 ≤ playcount

/-- `wf_stats_skipcount_is_valid`: skip count valid iff nonnegative. -/
def wf_stats_skipcount_is_valid (skipcount : Int) : Bool :=
  0 ≤ skipcount

/-- `wf_stats_lastplayed_is_valid`: last-played timestamp valid iff
nonnegative. -/
def wf_stats_lastplayed_is_valid (lastplayed : Int) : Bool :=
  0 ≤ lastplayed

/-- `wf_stats_rating_invert`: invalid ratings map to 0, unrated stays unrated,
otherwise `100 - rating`. -/
def wf_stats_rating_invert (rating : Int) : Int :=
  if ¬(wf_stats_rating_is_valid rating) then 0
  else if rating = 0 then 0
  else 100 - rating

/-- `wf_stats_score_invert`: invalid scores map to 0, otherwise
`100 - score`. -/
def wf_stats_score_invert (score : ℚ) : ℚ :=
  if ¬(wf_stats_score_is_valid score) then 0
  else 100 - score

/-- `wf_stats_update_score` applied to a song whose current score is
`current`: returns the score stored afterwards.  Mirrors the branch structure
of the C function (reset on `-1`, direct set when nonzero and in range,
otherwise the `increase` path that refuses out-of-range results). -/
def wf_stats_update_score (current score increase : ℚ) : ℚ :=
  if score = -1 then 0
  else if score ≠ 0 ∧ 0 ≤ score ∧ score ≤ 100 then score
  else if -100 ≤ increase ∧ increase ≤ 100 then
    (if current + increase < 0 ∨ current + increase > 100 then current
     else current + increase)
  else current

/-- `wf_stats_update_playcount` applied to a song whose current play count is
`current`: returns the play count stored afterwards. -/
def wf_stats_update_playcount (current playcount increase : Int) : Int :=
  if playcount = -1 then 0
  else if increase = 0 then playcount
  else
    let v := current + increase
    if v < 0 then current else v

/-- `wf_stats_update_skipcount` applied to a song whose current skip count is
`current`: returns the skip count stored afterwards. -/
def wf_stats_update_skipcount (current skipcount increase : Int) : Int :=
  if skipcount = -1 then 0
  else if increase = 0 then skipcount
  else
    let v := current + increase
    if v < 0 then current else v

/-- `wf_stats_update_lastplayed` applied to a song whose current timestamp is
`current`: returns the timestamp stored afterwards. -/
def wf_stats_update_lastplayed (current lastplayed : Int) (increase : Int) : Int :=
  if lastplayed = -1 then 0
  else if 0 ≤ lastplayed then lastplayed
  else
    let v := current + increase
    if v ≤ 0 then current else v

/-- The full-played-fraction substitution of `wf_stats_modify_and_update_score`,
exactly as positioned in the source: only a fraction already at least 1.0 is
compared against the setting. -/
def wf_full_played_substitution (full_played_setting played_fraction : ℚ) : ℚ :=
  if played_fraction ≥ 1 then
    (if played_fraction ≥ full_played_setting then 1 else played_fraction)
  else played_fraction

/-- The averaging formula of `wf_stats_modify_and_update_score`: plain mean
for a fresh song, play-count-weighted mean otherwise. -/
def wf_score_formula (playcount : Int) (old_score f : ℚ) : ℚ :=
  if playcount ≤ 0 then (old_score + f * 100) / 2
  else (old_score * playcount + f * 100) / (playcount + 1)

/-- `wf_stats_modify_and_update_score`: returns the score stored after the
call, given the incognito flag, the `FullPlayedFraction` setting, and the
song's play count and current score.  Faithful to the source: the
full-played-fraction substitution sits inside the `played_fraction >= 1.0`
branch, exactly as in the C code. -/
def wf_stats_modify_and_update_score (incognito : Bool) (full_played_setting : ℚ)
    (playcount : Int) (old_score played_fraction : ℚ) : ℚ :=
  if incognito then old_score
  else if played_fraction < 0 ∨ played_fraction > 1 then old_score
  else if old_score < 0 ∨ old_score > 100 then old_score
  else
    wf_stats_update_score old_score
      (max 0 (min (wf_score_formula playcount old_score
        (wf_full_played_substitution full_played_setting played_fraction)) 100)) 0

/-- `wf_stats_modify_and_update_playcount`: returns the play count stored
after the call, given the incognito flag and the `MinimumPlayedFraction`
setting. -/
def wf_stats_modify_and_update_playcount (incognito : Bool) (min_played_setting : ℚ)
    (played_fraction : ℚ) (decrease : Bool) (current : Int) : Int :=
  if incognito then current
  else if played_fraction < min_played_setting then current
  else if decrease then wf_stats_update_playcount current 0 (-1)
  else wf_stats_update_playcount current 0 1

/-- `wf_stats_modify_and_update_skipcount`: returns the skip count stored
after the call.  Faithful to the source: the only gate besides incognito is
`played_fraction > full_played_setting`; the minimum-played-fraction setting
is not consulted. -/
def wf_stats_modify_and_update_skipcount (incognito : Bool) (full_played_setting : ℚ)
    (played_fraction : ℚ) (decrease : Bool) (current : Int) : Int :=
  if incognito then current
  else if played_fraction > full_played_setting then current
  else if decrease then wf_stats_update_skipcount current 0 (-1)
  else wf_stats_update_skipcount current 0 1

/-- `wf_stats_modify_and_update_lastplayed`: returns the timestamp stored
after the call; `now` is the injected wall clock used when `time` is 0. -/
def wf_stats_modify_and_update_lastplayed (incognito : Bool) (min_played_setting : ℚ)
    (played_fraction : ℚ) (time now current : Int) : Int :=
  if incognito then current
  else if played_fraction < min_played_setting then current
  else if time = 0 then wf_stats_update_lastplayed current now 0
  else wf_stats_update_lastplayed current time 0

/-! ## Selection algorithm (src/intelligence.c) -/

/-- One year in seconds, the cap used by the last-played curves. -/
def one_year : Int := 365 * 24 * 60 * 60

/-- `wf_intelligence_calculate_entries_with_fraction`: the saturating rational
curve.  `(gint)(a*r / (x+a))` is floor of a nonnegative value; the
non-inverted variant truncates `-a*r / (x+a)` toward zero, which equals minus
the floor of `a*r / (x+a)`. -/
def wf_intelligence_calculate_entries_with_fraction (x a r : Int) (invert : Bool) : Int :=
  if a ≤ 0 ∨ r ≤ 0 ∨ x < 0 then 0
  else if invert then (a * r) / (x + a)
  else r - (a * r) / (x + a)

/-- `wf_intelligence_calculate_entries_with_sqrt`: the saturating square-root
curve.  `(gint)(r * sqrt x / a)` is modelled exactly as
`Nat.sqrt (r^2 * x) / a`; the inverted variant truncates the negated value
toward zero, which equals minus that floor. -/
def wf_intelligence_calculate_entries_with_sqrt (x a r : Int) (invert : Bool) : Int :=
  if a ≤ 0 ∨ r ≤ 0 ∨ x < 0 then 0
  else if invert then r - (Nat.sqrt (r.toNat ^ 2 * x.toNat) : Int) / a
  else (Nat.sqrt (r.toNat ^ 2 * x.toNat) : Int) / a

/-- `wf_intelligence_get_entries_count`: play/skip-count curve, shape 100,
range 100, non-inverted. -/
def wf_intelligence_get_entries_count (count : Int) : Int :=
  wf_intelligence_calculate_entries_with_fraction count 100 100 false

/-- `wf_intelligence_get_entries_count_inverted`: play/skip-count curve,
inverted. -/
def wf_intelligence_get_entries_count_inverted (count : Int) : Int :=
  wf_intelligence_calculate_entries_with_fraction count 100 100 true

/-- `wf_intelligence_get_entries_time_since`: last-played curve, shape 5616,
range 100, with the input capped to one year. -/
def wf_intelligence_get_entries_time_since (time_since : Int) : Int :=
  wf_intelligence_calculate_entries_with_sqrt (min time_since one_year) 5616 100 false

/-- `wf_intelligence_get_entries_time_since_inverted`: last-played curve,
inverted, with the input capped to one year. -/
def wf_intelligence_get_entries_time_since_inverted (time_since : Int) : Int :=
  wf_intelligence_calculate_entries_with_sqrt (min time_since one_year) 5616 100 true

/-- `wf_intelligence_determine_modifiers`: builds the container from the
preferences.  Each factor is the user multiplier scaled by 1000 and truncated
to `gint`; a modifier is used only if enabled with a positive multiplier. -/
def wf_intelligence_determine_modifiers (p : WfSongEntries) : WfIntelligenceContainer :=
  { default_rating := if p.use_rating ∧ p.rating_multiplier > 0 then p.use_default_rating else 0
    favor_low_ratings := p.use_rating ∧ p.rating_multiplier > 0 ∧ p.invert_rating
    rating_factor := if p.use_rating ∧ p.rating_multiplier > 0 then
      ctrunc (p.rating_multiplier * 1000) else 0
    favor_low_scores := p.use_score ∧ p.score_multiplier > 0 ∧ p.invert_score
    score_factor := if p.use_score ∧ p.score_multiplier > 0 then
      ctrunc (p.score_multiplier * 1000) else 0
    favor_low_playcount := p.use_playcount ∧ p.playcount_multiplier > 0 ∧ p.invert_playcount
    playcount_factor := if p.use_playcount ∧ p.playcount_multiplier > 0 then
      ctrunc (p.playcount_multiplier * 1000) else 0
    favor_low_skipcount := p.use_skipcount ∧ p.skipcount_multiplier > 0 ∧ p.invert_skipcount
    skipcount_factor := if p.use_skipcount ∧ p.skipcount_multiplier > 0 then
      ctrunc (p.skipcount_multiplier * 1000) else 0
    favor_low_lastplayed := p.use_lastplayed ∧ p.lastplayed_multiplier > 0 ∧ p.invert_lastplayed
    lastplayed_factor := if p.use_lastplayed ∧ p.lastplayed_multiplier > 0 then
      ctrunc (p.lastplayed_multiplier * 1000) else 0 }

/-- The rating block of `wf_intelligence_calculate_song_entries`: contribution
added to a song's entry total by the rating modifier. -/
def wf_intelligence_rating_entry (c : WfIntelligenceContainer) (s : WfSong) : Int :=
  if c.rating_factor ≠ 0 ∧ wf_stats_rating_is_valid s.rating then
    (if c.favor_low_ratings then wf_stats_rating_invert s.rating
     else if s.rating = 0 then c.default_rating
     else s.rating) * c.rating_factor
  else 0

/-- The play-count block of `wf_intelligence_calculate_song_entries`. -/
def wf_intelligence_playcount_entry (c : WfIntelligenceContainer) (s : WfSong) : Int :=
  if c.playcount_factor ≠ 0 ∧ wf_stats_playcount_is_valid s.playCount then
    (if c.favor_low_playcount then wf_intelligence_get_entries_count_inverted s.playCount
     else wf_intelligence_get_entries_count s.playCount) * c.playcount_factor
  else 0

/-- The skip-count block of `wf_intelligence_calculate_song_entries`. -/
def wf_intelligence_skipcount_entry (c : WfIntelligenceContainer) (s : WfSong) : Int :=
  if c.skipcount_factor ≠ 0 ∧ wf_stats_skipcount_is_valid s.skipCount then
    (if c.favor_low_skipcount then wf_intelligence_get_entries_count_inverted s.skipCount
     else wf_intelligence_get_entries_count s.skipCount) * c.skipcount_factor
  else 0

/-- The last-played block of `wf_intelligence_calculate_song_entries`: when
the time since the last play exceeds one year the source short-circuits with
the fixed maximum `x = 100` regardless of the invert flag; otherwise it
evaluates the (possibly inverted) square-root curve. -/
def wf_intelligence_lastplayed_entry (c : WfIntelligenceContainer) (now : Int) (s : WfSong) : Int :=
  if c.lastplayed_factor ≠ 0 ∧ wf_stats_lastplayed_is_valid s.lastPlayed then
    (if |now - s.lastPlayed| > one_year then 100
     else if c.favor_low_lastplayed then
       wf_intelligence_get_entries_time_since_inverted |now - s.lastPlayed|
     else wf_intelligence_get_entries_time_since |now - s.lastPlayed|) * c.lastplayed_factor
  else 0

/-- The entry total accumulated for one song by
`wf_intelligence_calculate_song_entries`.  The score block adds a `gdouble`
product to the integer accumulator and the result is truncated toward zero on
assignment; the other four blocks are pure integer arithmetic. -/
def wf_song_entry_total (c : WfIntelligenceContainer) (now : Int) (s : WfSong) : Int :=
  let e1 := wf_intelligence_rating_entry c s
  let e2 :=
    if c.score_factor ≠ 0 ∧ wf_stats_score_is_valid s.score then
      ctrunc ((e1 : ℚ) +
        (if c.favor_low_scores then wf_stats_score_invert s.score else s.score) * c.score_factor)
    else e1
  let e3 := e2 + wf_intelligence_playcount_entry c s
  let e4 := e3 + wf_intelligence_skipcount_entry c s
  e4 + wf_intelligence_lastplayed_entry c now s

/-- `wf_intelligence_calculate_song_entries`: builds the weighted-entry list.
A song with a negative entry total is dropped; a song with a zero total is
kept with entry count 1. -/
def wf_intelligence_calculate_song_entries (c : WfIntelligenceContainer) (now : Int)
    (songs : List WfSong) : List (WfSong × Int) :=
  songs.filterMap fun s =>
    if wf_song_entry_total c now s < 0 then none
    else if wf_song_entry_total c now s = 0 then some (s, 1)
    else some (s, wf_song_entry_total c now s)

/-- The walk of `wf_intelligence_pick_winner`: skip nonpositive entry counts,
accumulate a running sum, return the first song whose sum reaches the drawn
value. -/
def wf_intelligence_pick_winner_go (rand : Int) : Int → List (WfSong × Int) → Option WfSong
  | _, [] => none
  | sum, (s, e) :: rest =>
    if e ≤ 0 then wf_intelligence_pick_winner_go rand sum rest
    else if sum + e ≥ rand then some s
    else wf_intelligence_pick_winner_go rand (sum + e) rest

/-- `wf_intelligence_pick_winner`: given the recorded total, the weighted-entry
list and the drawn value, returns the winner; an empty list or a nonpositive
total yields no song. -/
def wf_intelligence_pick_winner (total : Int) (list : List (WfSong × Int)) (rand : Int) :
    Option WfSong :=
  if list = [] then none
  else if total ≤ 0 then none
  else wf_intelligence_pick_winner_go rand 0 list

/-! ## Filter pipeline (src/intelligence.c) -/

/-- `wf_intelligence_remove_invalid_songs`: drop every song whose status is
not available. -/
def wf_intelligence_remove_invalid_songs (library : List WfSong) : List WfSong :=
  library.filter fun s => s.status = WfSongStatus.available

/-- `wf_intelligence_remove_songs_with_artists`: drop every song whose artist
hash is nonzero and occurs among the first `amount` recent-artist hashes. -/
def wf_intelligence_remove_songs_with_artists (library : List WfSong)
    (artists : List Nat) (amount : Int) : List WfSong :=
  if artists = [] then library
  else library.filter fun s =>
    s.artistHash = 0 ∨ s.artistHash ∉ artists.take amount.toNat

/-- `wf_intelligence_use_rating_filter`: the rating filter is active only when
enabled with positive, valid bounds. -/
def wf_intelligence_use_rating_filter (use : Bool) (rating_min rating_max : Int) : Bool :=
  if ¬use ∨ rating_min ≤ 0 ∨ rating_max ≤ 0 then false
  else wf_stats_rating_is_valid rating_min && wf_stats_rating_is_valid rating_max

/-- `wf_intelligence_use_score_filter`. -/
def wf_intelligence_use_score_filter (use : Bool) (score_min score_max : ℚ) : Bool :=
  if ¬use ∨ score_min ≤ 0 ∨ score_max ≤ 0 then false
  else wf_stats_score_is_valid score_min && wf_stats_score_is_valid score_max

/-- `wf_intelligence_use_playcount_filter`. -/
def wf_intelligence_use_playcount_filter (use : Bool) (playcount_th : Int) : Bool :=
  if ¬use ∨ playcount_th ≤ 0 then false
  else wf_stats_playcount_is_valid playcount_th

/-- `wf_intelligence_use_skipcount_filter`. -/
def wf_intelligence_use_skipcount_filter (use : Bool) (skipcount_th : Int) : Bool :=
  if ¬use ∨ skipcount_th ≤ 0 then false
  else wf_stats_skipcount_is_valid skipcount_th

/-- `wf_intelligence_use_lastplayed_filter`. -/
def wf_intelligence_use_lastplayed_filter (use : Bool) (lastplayed_th : Int) : Bool :=
  if ¬use ∨ lastplayed_th ≤ 0 then false
  else wf_stats_lastplayed_is_valid lastplayed_th

/-- Whether `wf_intelligence_filter_by_stats` removes song `s` at time `now`:
the disjunction of the five per-statistic removal conditions (the source
short-circuits after the first hit, which only affects logging). -/
def wf_song_removed_by_stats (f : WfSongFilter) (now : Int) (s : WfSong) : Bool :=
  (wf_intelligence_use_rating_filter f.use_rating f.rating_min f.rating_max &&
    (¬wf_stats_rating_is_valid s.rating ∨
      (¬(f.rating_inc_zero ∧ s.rating = 0) ∧
        (s.rating < f.rating_min ∨ s.rating > f.rating_max)))) ||
  (wf_intelligence_use_score_filter f.use_score f.score_min f.score_max &&
    (¬wf_stats_score_is_valid s.score ∨
      s.score < (f.score_min : ℚ) ∨ s.score > (f.score_max : ℚ))) ||
  (wf_intelligence_use_playcount_filter f.use_playcount f.playcount_th &&
    (¬wf_stats_playcount_is_valid s.playCount ∨
      (f.playcount_invert ∧ s.playCount > f.playcount_th) ∨
      (¬f.playcount_invert ∧ s.playCount < f.playcount_th))) ||
  (wf_intelligence_use_skipcount_filter f.use_skipcount f.skipcount_th &&
    (¬wf_stats_skipcount_is_valid s.skipCount ∨
      (f.skipcount_invert ∧ s.skipCount > f.skipcount_th) ∨
      (¬f.skipcount_invert ∧ s.skipCount < f.skipcount_th))) ||
  (wf_intelligence_use_lastplayed_filter f.use_lastplayed f.lastplayed_th &&
    (¬wf_stats_lastplayed_is_valid s.lastPlayed ∨
      (f.lastplayed_invert ∧ |now - s.lastPlayed| > f.lastplayed_th) ∨
      (¬f.lastplayed_invert ∧ |now - s.lastPlayed| < f.lastplayed_th)))

/-- `wf_intelligence_filter_by_stats`: keep the songs not removed by any
active statistic filter. -/
def wf_intelligence_filter_by_stats (library : List WfSong) (f : WfSongFilter)
    (now : Int) : List WfSong :=
  library.filter fun s => ¬wf_song_removed_by_stats f now s

/-- `wf_intelligence_get_percentage_of_list`: the number of songs that a
percentage of the list represents, truncated to an integer. -/
def wf_intelligence_get_percentage_of_list (list : List WfSong) (percentage : ℚ) : Int :=
  if list = [] ∨ percentage ≤ 0 then 0
  else if percentage ≥ 100 then list.length
  else ⌊(list.length : ℚ) * percentage / 100⌋

/-- A removal loop of `wf_intelligence_remove_recents` over an explicit list
of songs to remove (the play-next and previously-played phases): each listed
song is erased from the library — counting toward the budget whether or not it
was present — until the budget `amount` is reached. -/
def wf_intelligence_remove_listed :
    List WfSong → List WfSong → Int → Int → List WfSong × Int
  | library, [], x, _ => (library, x)
  | library, s :: rest, x, amount =>
    if x < amount then wf_intelligence_remove_listed (library.erase s) rest (x + 1) amount
    else (library, x)

/-- The last phase of `wf_intelligence_remove_recents`: walk the
last-played-descending sorted copy, erase songs that have been played
(`last_played > 0`) until the budget is reached; never-played songs are
skipped without counting. -/
def wf_intelligence_remove_by_lastplayed :
    List WfSong → List WfSong → Int → Int → List WfSong × Int
  | library, [], x, _ => (library, x)
  | library, s :: rest, x, amount =>
    if x < amount then
      if s.lastPlayed ≤ 0 then wf_intelligence_remove_by_lastplayed library rest x amount
      else wf_intelligence_remove_by_lastplayed (library.erase s) rest (x + 1) amount
    else (library, x)

/-- The comparison of `wf_intelligence_sort_compare` as a sorting relation:
most recently played first (all songs in the embedding are valid). -/
def wf_intelligence_sort_le (a b : WfSong) : Bool :=
  b.lastPlayed ≤ a.lastPlayed

/-- `wf_intelligence_remove_recents`: remove up to `amount` songs, first those
earmarked in `list_next`, then those in `list_prev`, then the most recently
played of the remaining library. -/
def wf_intelligence_remove_recents (library list_prev list_next : List WfSong)
    (amount : Int) : List WfSong :=
  if library = [] ∨ amount ≤ 0 then library
  else
    let r1 := wf_intelligence_remove_listed library list_next 0 amount
    let r2 := wf_intelligence_remove_listed r1.1 list_prev r1.2 amount
    if r2.2 < amount then
      let sorted := r2.1.mergeSort (fun a b => wf_intelligence_sort_le a b)
      (wf_intelligence_remove_by_lastplayed r2.1 sorted r2.2 amount).1
    else r2.1

/-- The first three stages of `wf_intelligence_filter`: availability,
artist diversity, statistic filters, in source order. -/
def wf_intelligence_filter_stages123 (available_songs : List WfSong)
    (recent_artists : List Nat) (f : WfSongFilter) (now : Int) : List WfSong :=
  wf_intelligence_filter_by_stats
    (wf_intelligence_remove_songs_with_artists
      (wf_intelligence_remove_invalid_songs available_songs)
      recent_artists f.recent_artists)
    f now

/-- The recency-removal budget computed by `wf_intelligence_filter` (its local
`remove_recent`): the percentage of the stage-1–3 output plus the fixed
amount. -/
def wf_intelligence_recents_budget (available_songs : List WfSong)
    (recent_artists : List Nat) (f : WfSongFilter) (now : Int) : Int :=
  wf_intelligence_get_percentage_of_list
    (wf_intelligence_filter_stages123 available_songs recent_artists f now)
    f.remove_recents_percentage
  + f.remove_recents_amount

/-- `wf_intelligence_filter`: the full four-stage pipeline.  An empty input
returns the empty list, and the source's final NULL-on-empty check is the
identity on lists. -/
def wf_intelligence_filter (available_songs previous_songs play_next : List WfSong)
    (recent_artists : List Nat) (f : WfSongFilter) (now : Int) : List WfSong :=
  if available_songs = [] then []
  else
    wf_intelligence_remove_recents
      (wf_intelligence_filter_stages123 available_songs recent_artists f now)
      previous_songs play_next
      (wf_intelligence_recents_budget available_songs recent_artists f now)

/-! ## History tracker (src/song_manager.c) -/

/-- The two playback-fraction settings consulted by the statistics wrappers
(src/settings.c: `MinimumPlayedFraction`, `FullPlayedFraction`). -/
structure WfSettings where
  min_played_fraction : ℚ
  full_played_fraction : ℚ
deriving DecidableEq, Repr

/-- The module state of src/song_manager.c (`struct _WfSongManagerDetails`,
without the event callbacks). -/
structure WfSongManagerState where
  incognito : Bool
  current : Option WfSong
  list_previous : List WfSong
  list_next : List WfSong
  list_queue : List WfSong
  artists : List Nat
deriving DecidableEq, Repr

/-- `wf_song_manager_add_recent_artist`: prepend a nonzero artist hash;
for hash 0 the source returns NULL, i.e. the empty list, dropping the input
list. -/
def wf_song_manager_add_recent_artist (list : List Nat) (artist : Nat) : List Nat :=
  if artist ≠ 0 then artist :: list
  else []

/-- `wf_song_manager_trim_list_length`: truncate a list after its first
`limit` items.  Faithful to the source: when the node at index `limit - 1` is
the head node — that is, whenever `limit = 1` — the list is returned without
trimming (the branch the source comments as the single-item case). -/
def wf_song_manager_trim_list_length {α : Type} [DecidableEq α]
    (list : List α) (limit : Nat) : List α :=
  if list = [] ∨ limit = 0 then list
  else if list.length < limit then list
  else if limit = 1 then list
  else list.take limit

/-- The statistics-update block of `wf_song_manager_add_played_song`: the four
`wf_stats_modify_and_update_*` calls in source order (score first, so that it
sees the pre-increment play count). -/
def wf_song_manager_update_stats (incognito : Bool) (settings : WfSettings) (now : Int)
    (played_fraction : ℚ) (skip_score_update : Bool) (song : WfSong) : WfSong :=
  let newScore := wf_stats_modify_and_update_score incognito
    settings.full_played_fraction song.playCount song.score played_fraction
  let s1 := if ¬skip_score_update then { song with score := newScore } else song
  let newPlayCount := wf_stats_modify_and_update_playcount incognito
    settings.min_played_fraction played_fraction false s1.playCount
  let s2 := { s1 with playCount := newPlayCount }
  let newSkipCount := wf_stats_modify_and_update_skipcount incognito
    settings.full_played_fraction played_fraction false s2.skipCount
  let s3 := { s2 with skipCount := newSkipCount }
  let newLastPlayed := wf_stats_modify_and_update_lastplayed incognito
    settings.min_played_fraction played_fraction 0 now s3.lastPlayed
  { s3 with lastPlayed := newLastPlayed }

/-- `wf_song_manager_add_played_song`: record a played song.  Returns the new
manager state and the song with its (possibly) updated statistics.  A fraction
outside `[0, 1]` fails the precondition check and changes nothing.  The song
is prepended to the previously-played list, its artist hash folded into the
recent-artists list, statistics are updated unless incognito is active, and
the current-track slot is cleared. -/
def wf_song_manager_add_played_song (st : WfSongManagerState) (settings : WfSettings)
    (now : Int) (song : WfSong) (played_fraction : ℚ) (skip_score_update : Bool) :
    WfSongManagerState × WfSong :=
  if played_fraction < 0 ∨ played_fraction > 1 then (st, song)
  else
    let song1 := if ¬st.incognito then
        wf_song_manager_update_stats st.incognito settings now played_fraction
          skip_score_update song
      else song
    ({ st with
        list_previous := song :: st.list_previous
        artists := wf_song_manager_add_recent_artist st.artists song.artistHash
        current := none },
      song1)

/-! ## Spec-side definition for the refinement part of claim C2 -/

/-- The specification's description of the weighted draw, stated in its own
words: walk the weighted-entry list accumulating a running sum and return the
first track whose cumulative sum reaches or exceeds the drawn value.  Compared
against `wf_intelligence_pick_winner`. -/
def spec_first_cumulative_winner (r : Int) : Int → List (WfSong × Int) → Option WfSong
  | _, [] => none
  | acc, (s, e) :: rest =>
    if acc + e ≥ r then some s else spec_first_cumulative_winner r (acc + e) rest

/-! ## Concrete fixtures used by the claims' scenarios -/

/-- An available song with a given identifier and rating; the other statistics
are neutral. -/
def mkRatedSong (i : Nat) (r : Int) : WfSong :=
  { id := i, status := .available, artistHash := 0, rating := r, score := 50,
    playCount := 0, skipCount := 0, lastPlayed := 0 }

/-- An available song with a given identifier and last-played timestamp. -/
def mkPlayedSong (i : Nat) (lp : Int) : WfSong :=
  { id := i, status := .available, artistHash := 0, rating := 0, score := 50,
    playCount := 0, skipCount := 0, lastPlayed := lp }

/-- The filter of the C1 regression scenario: an active rating filter keeping
ratings in `[1, 100]` without unrated songs, recency percentage 50, fixed
amount 0. -/
def c1_scenario_config : WfSongFilter :=
  { recent_artists := 0, remove_recents_amount := 0, remove_recents_percentage := 50,
    use_rating := true, use_score := false, use_playcount := false,
    use_skipcount := false, use_lastplayed := false,
    rating_inc_zero := false, playcount_invert := false, skipcount_invert := false,
    lastplayed_invert := false,
    rating_min := 1, rating_max := 100, score_min := 0, score_max := 0,
    playcount_th := 0, skipcount_th := 0, lastplayed_th := 0 }

/-- The library of the C1 regression scenario: ten available songs of which
exactly one (rating 0) matches the statistic filter. -/
def c1_scenario_library : List WfSong :=
  (List.range 9).map (fun i => mkRatedSong i 50) ++ [mkRatedSong 9 0]

/-- The probability preferences of the end-to-end scenario of C2: rating
modifier only, multiplier 1.0, default rating 20 for unrated songs. -/
def c2_scenario_prefs : WfSongEntries :=
  { use_rating := true, use_score := false, use_playcount := false,
    use_skipcount := false, use_lastplayed := false,
    invert_rating := false, invert_score := false, invert_playcount := false,
    invert_skipcount := false, invert_lastplayed := false,
    use_default_rating := 20, rating_multiplier := 1, score_multiplier := 0,
    playcount_multiplier := 0, skipcount_multiplier := 0, lastplayed_multiplier := 0 }

/-- Track A of the end-to-end scenario: rating 80. -/
def c2_song_a : WfSong := mkRatedSong 1 80

/-- Track B of the end-to-end scenario: rating unset. -/
def c2_song_b : WfSong := mkRatedSong 2 0

/-- Track C of the end-to-end scenario: rating 100. -/
def c2_song_c : WfSong := mkRatedSong 3 100

/-- A container using only the inverted last-played modifier with
multiplier-scaled factor 1000, for the C5 scenario. -/
def c5_scenario_container : WfIntelligenceContainer :=
  { default_rating := 0, favor_low_ratings := false, rating_factor := 0,
    favor_low_scores := false, score_factor := 0,
    favor_low_playcount := false, playcount_factor := 0,
    favor_low_skipcount := false, skipcount_factor := 0,
    favor_low_lastplayed := true, lastplayed_factor := 1000 }

/-- A container whose rating factor is negative (the `gint` field admits any
value), driving an entry total below zero for the C6 scenario. -/
def c6_scenario_container : WfIntelligenceContainer :=
  { default_rating := 0, favor_low_ratings := false, rating_factor := -1,
    favor_low_scores := false, score_factor := 0,
    favor_low_playcount := false, playcount_factor := 0,
    favor_low_skipcount := false, skipcount_factor := 0,
    favor_low_lastplayed := false, lastplayed_factor := 0 }

/-- A song with a strictly negative entry total under
`c6_scenario_container`. -/
def c6_neg_song : WfSong := mkRatedSong 1 50

/-- A song with entry total exactly zero under `c6_scenario_container`
(rating unset, default rating 0). -/
def c6_zero_song : WfSong := mkRatedSong 2 0

/-- A manager state with incognito enabled and a nonempty recent-artists
list. -/
def c8_scenario_state : WfSongManagerState :=
  { incognito := true, current := none, list_previous := [], list_next := [],
    list_queue := [], artists := [7, 8] }

/-- A manager state with incognito disabled and a nonempty recent-artists
list. -/
def c10_scenario_state : WfSongManagerState :=
  { incognito := false, current := none, list_previous := [], list_next := [],
    list_queue := [], artists := [7, 8, 9] }

/-- Neutral playback-fraction settings (the source defaults: minimum 0.2,
full 0.8). -/
def default_settings : WfSettings :=
  { min_played_fraction := 1/5, full_played_fraction := 4/5 }

/-! ## Claim C3 -/

/-- C3: the claim states that in `wf_stats_modify_and_update_score` every
`played_fraction` at or above the full-played-fraction setting is treated as
exactly 1.0.  The code contradicts this (and its own comment): the
substitution sits inside the dead `played_fraction >= 1.0` branch, so with the
setting at 0.9 a fraction of 0.95 contributes 95.0, giving a new score of
72.5 for a fresh song with old score 50 instead of the 75.0 the claim
requires. -/
theorem C3_full_played_substitution_dead :
    wf_stats_modify_and_update_score false (9/10) 0 50 (19/20) = 145/2 ∧
    (145/2 : ℚ) ≠ (50 + 100) / 2 := by
  constructor
  · norm_num [wf_stats_modify_and_update_score, wf_stats_update_score,
      wf_score_formula, wf_full_played_substitution]
  · norm_num

/-! ## Claim C4 -/

/-- C4, counterexample: the claim requires `played_fraction` below the
minimum-played-fraction setting (default 0.2) to leave the skip count
unchanged, but `wf_stats_modify_and_update_skipcount` never consults that
setting: with fraction 0 (below any positive minimum) and the full threshold
at its 0.8 default, a skip count of 5 is incremented to 6. -/
theorem C4_skipcount_below_minimum_counterexample :
    wf_stats_modify_and_update_skipcount false (4/5) 0 false 5 = 6 ∧
    (6 : Int) ≠ 5 := by
  constructor
  · norm_num [wf_stats_modify_and_update_skipcount, wf_stats_update_skipcount]
  · norm_num

/-- C4, amended: not in incognito mode and not decreasing, the skip count is
incremented if and only if `played_fraction` does not exceed the
full-played-fraction setting; the minimum-played-fraction setting plays no
role. -/
theorem C4_skipcount_full_gate_only (full_played_setting played_fraction : ℚ)
    (current : Int) (hc : 0 ≤ current) :
    wf_stats_modify_and_update_skipcount false full_played_setting played_fraction
        false current =
      if played_fraction > full_played_setting then current else current + 1 := by
  unfold wf_stats_modify_and_update_skipcount wf_stats_update_skipcount
  simp only [Bool.false_eq_true, if_false]
  split
  · rfl
  · norm_num
    omega

/-- Witness for C4: a fraction of one quarter with the full threshold at one
half increments a zero skip count to one. -/
theorem C4_skipcount_full_gate_only_witness :
    (0 : Int) ≤ 0 ∧
    wf_stats_modify_and_update_skipcount false (1/2) (1/4) false 0 =
      if (1/4 : ℚ) > 1/2 then 0 else 0 + 1 :=
  ⟨le_refl 0, C4_skipcount_full_gate_only (1/2) (1/4) 0 (le_refl 0)⟩

/-! ## Claim C1 -/

/-- C1: the recency-removal budget of `wf_intelligence_filter` is computed
against the candidate count after the availability, artist and statistic
filter stages: it equals the floor of that count times the percentage over
100, plus the fixed amount. -/
theorem C1_recency_budget_after_stages (available_songs : List WfSong)
    (recent_artists : List Nat) (f : WfSongFilter) (now : Int)
    (h0 : 0 ≤ f.remove_recents_percentage)
    (h100 : f.remove_recents_percentage ≤ 100) :
    wf_intelligence_recents_budget available_songs recent_artists f now =
      ⌊((wf_intelligence_filter_stages123 available_songs recent_artists f now).length : ℚ) *
          f.remove_recents_percentage / 100⌋ + f.remove_recents_amount := by
  unfold wf_intelligence_recents_budget wf_intelligence_get_percentage_of_list
  congr 1
  split_ifs with h1 h2
  · rcases h1 with h1 | h1
    · rw [h1]
      simp
    · have hp0 : f.remove_recents_percentage = 0 := le_antisymm h1 h0
      rw [hp0]
      simp
  · have hp100 : f.remove_recents_percentage = 100 := le_antisymm h100 h2
    rw [hp100, mul_div_assoc]
    norm_num
  · rfl

/-- Witness for C1: the regression scenario — a library of ten songs of which
one is removed by the statistic filter, percentage 50, fixed amount 0 —
attempts exactly 4 recency removals (50 percent of 9, rounded down), not 5. -/
theorem C1_recency_budget_after_stages_witness :
    wf_intelligence_recents_budget c1_scenario_library [] c1_scenario_config 1000 = 4 := by
  have h := C1_recency_budget_after_stages c1_scenario_library [] c1_scenario_config 1000
    (by norm_num [c1_scenario_config]) (by norm_num [c1_scenario_config])
  rw [h]
  rw [show (wf_intelligence_filter_stages123 c1_scenario_library [] c1_scenario_config
    1000).length = 9 from rfl]
  rw [show c1_scenario_config.remove_recents_percentage = 50 from rfl]
  rw [show c1_scenario_config.remove_recents_amount = 0 from rfl]
  rw [show ((9 : ℕ) : ℚ) * 50 / 100 = 9 / 2 by norm_num]
  rw [show ⌊(9 / 2 : ℚ)⌋ = 4 from by
    rw [Int.floor_eq_iff]
    norm_num]
  norm_num

/-! ## Claim C2 -/

/-- The walk of the weighted draw agrees with the specification's
first-cumulative-sum description whenever every entry count is at least 1
(no skipped nonpositive entries). -/
theorem pick_winner_go_eq_spec (rand : Int) :
    ∀ (list : List (WfSong × Int)) (sum : Int), (∀ p ∈ list, 1 ≤ p.2) →
      wf_intelligence_pick_winner_go rand sum list =
        spec_first_cumulative_winner rand sum list := by
  intro list
  induction list with
  | nil =>
    intro sum _
    rfl
  | cons hd tl ih =>
    intro sum hpos
    obtain ⟨s, e⟩ := hd
    have he : 1 ≤ e := hpos (s, e) (List.mem_cons_self _ _)
    show (if e ≤ 0 then wf_intelligence_pick_winner_go rand sum tl
        else if sum + e ≥ rand then some s
        else wf_intelligence_pick_winner_go rand (sum + e) tl) =
      (if sum + e ≥ rand then some s else spec_first_cumulative_winner rand (sum + e) tl)
    rw [if_neg (by omega)]
    split
    · rfl
    · exact ih (sum + e) (fun p hp => hpos p (List.mem_cons_of_mem _ hp))

/-- C2: the weighted draw.  First, with a nonpositive entry-count sum the
selection returns no track.  Second, when every entry count is at least 1
(the invariant established by the entry calculation) and the drawn value lies
in `[1, total]`, the winner is the first track whose cumulative entry sum
reaches or exceeds the drawn value.  Third, the end-to-end scenario: ratings
80 / unset-with-default-20 / 100 under the rating modifier with multiplier
1.0 yield entry counts 80000, 20000, 100000, and the draw 150000 out of
200000 selects track C. -/
theorem C2_weighted_draw (list : List (WfSong × Int)) (total rand : Int) :
    ((list.map Prod.snd).sum ≤ 0 →
      wf_intelligence_pick_winner ((list.map Prod.snd).sum) list rand = none) ∧
    ((∀ p ∈ list, 1 ≤ p.2) → 0 < total → 1 ≤ rand → rand ≤ total →
      wf_intelligence_pick_winner total list rand =
        spec_first_cumulative_winner rand 0 list) ∧
    (wf_intelligence_calculate_song_entries
        (wf_intelligence_determine_modifiers c2_scenario_prefs) 0
        [c2_song_a, c2_song_b, c2_song_c] =
      [(c2_song_a, 80000), (c2_song_b, 20000), (c2_song_c, 100000)] ∧
    wf_intelligence_pick_winner 200000
        [(c2_song_a, 80000), (c2_song_b, 20000), (c2_song_c, 100000)] 150000 =
      some c2_song_c) := by
  refine ⟨?_, ?_, ?_, ?_⟩
  · intro h
    unfold wf_intelligence_pick_winner
    by_cases hl : list = []
    · rw [if_pos hl]
    · rw [if_neg hl, if_pos h]
  · intro hpos ht hr1 hr2
    unfold wf_intelligence_pick_winner
    by_cases hl : list = []
    · subst hl
      rw [if_pos rfl]
      rfl
    · rw [if_neg hl, if_neg (by omega)]
      exact pick_winner_go_eq_spec rand list 0 hpos
  · have hc : wf_intelligence_determine_modifiers c2_scenario_prefs =
        (⟨20, false, 1000, false, 0, false, 0, false, 0, false, 0⟩ :
          WfIntelligenceContainer) := by
      unfold wf_intelligence_determine_modifiers c2_scenario_prefs
      norm_num [ctrunc]
    rw [hc]
    decide
  · decide

/-- Witness for C2: the refinement part applied to the end-to-end scenario's
weighted-entry list with draw 150000. -/
theorem C2_weighted_draw_witness :
    wf_intelligence_pick_winner 200000
        [(c2_song_a, 80000), (c2_song_b, 20000), (c2_song_c, 100000)] 150000 =
      spec_first_cumulative_winner 150000 0
        [(c2_song_a, 80000), (c2_song_b, 20000), (c2_song_c, 100000)] :=
  (C2_weighted_draw [(c2_song_a, 80000), (c2_song_b, 20000), (c2_song_c, 100000)]
    200000 150000).2.1 (by decide) (by decide) (by decide) (by decide)

/-! ## Claim C5 -/

/-- The integer square root of the scaled one-year cap, needed to evaluate
the last-played curve at exactly one year. -/
theorem sqrt_scaled_one_year : Nat.sqrt 315360000000 = 561569 :=
  (Nat.eq_sqrt.mpr (by norm_num)).symm

/-- The inverted last-played curve at exactly one year evaluates to 1. -/
theorem entries_time_since_inverted_at_one_year :
    wf_intelligence_get_entries_time_since_inverted 31536000 = 1 := by
  unfold wf_intelligence_get_entries_time_since_inverted
    wf_intelligence_calculate_entries_with_sqrt
  rw [show min (31536000 : Int) one_year = 31536000 from rfl]
  rw [show (100 : Int).toNat ^ 2 * (31536000 : Int).toNat = 315360000000 from rfl]
  rw [sqrt_scaled_one_year]
  decide

/-- C5, counterexample: the claim states that a track older than one year
contributes the same last-played value as one played exactly one year ago,
for both curves.  Under the inverted curve the code gives the flat maximum
(100, scaled to 100000 by the factor) to the older track but 1 (scaled to
1000) to the one played exactly one year ago. -/
theorem C5_one_year_cap_counterexample :
    wf_intelligence_lastplayed_entry c5_scenario_container 31536001 (mkPlayedSong 1 0) =
      100000 ∧
    wf_intelligence_lastplayed_entry c5_scenario_container 31536001 (mkPlayedSong 2 1) =
      1000 ∧
    (100000 : Int) ≠ 1000 := by
  refine ⟨by decide, ?_, by decide⟩
  unfold wf_intelligence_lastplayed_entry
  rw [if_pos (⟨by decide, by decide⟩ :
    c5_scenario_container.lastplayed_factor ≠ 0 ∧
      wf_stats_lastplayed_is_valid (mkPlayedSong 2 1).lastPlayed)]
  rw [show |(31536001 : Int) - (mkPlayedSong 2 1).lastPlayed| = 31536000 from by decide]
  rw [if_neg (by decide), if_pos (show c5_scenario_container.favor_low_lastplayed = true
    from rfl)]
  rw [entries_time_since_inverted_at_one_year]
  decide

/-- C5, amended: for every track whose time-since-last-played exceeds one
year, the last-played modifier contributes the flat maximum curve value 100
times the factor, regardless of the invert flag.  This is not the value at
exactly one year, which is 99 (non-inverted) respectively 1 (inverted). -/
theorem C5_over_one_year_flat_maximum (c : WfIntelligenceContainer) (now : Int)
    (s : WfSong) (hv : 0 ≤ s.lastPlayed) (hy : one_year < |now - s.lastPlayed|) :
    wf_intelligence_lastplayed_entry c now s = 100 * c.lastplayed_factor := by
  unfold wf_intelligence_lastplayed_entry
  by_cases hf : c.lastplayed_factor = 0
  · rw [hf]
    simp
  · rw [if_pos ⟨hf, by simpa [wf_stats_lastplayed_is_valid] using hv⟩]
    rw [if_pos hy]

/-- Witness for C5: a track last played at time 0 observed at one second past
one year, with the inverted modifier and factor 1000, contributes
100 times 1000. -/
theorem C5_over_one_year_flat_maximum_witness :
    (0 : Int) ≤ (mkPlayedSong 1 0).lastPlayed ∧
    one_year < |(31536001 : Int) - (mkPlayedSong 1 0).lastPlayed| ∧
    wf_intelligence_lastplayed_entry c5_scenario_container 31536001 (mkPlayedSong 1 0) =
      100 * c5_scenario_container.lastplayed_factor :=
  ⟨by decide, by decide,
    C5_over_one_year_flat_maximum c5_scenario_container 31536001 (mkPlayedSong 1 0)
      (by decide) (by decide)⟩

/-! ## Claim C6 -/

/-- C6: invariants of the weighted-entry list built by
`wf_intelligence_calculate_song_entries`.  Every stored entry count is at
least 1; a song whose summed modifier contributions are negative never
appears (disqualified, not clamped); a song whose sum is exactly zero appears
with entry count 1. -/
theorem C6_weighted_entries_invariant (c : WfIntelligenceContainer) (now : Int)
    (songs : List WfSong) :
    (∀ p ∈ wf_intelligence_calculate_song_entries c now songs, 1 ≤ p.2) ∧
    (∀ s : WfSong, wf_song_entry_total c now s < 0 →
      ∀ e : Int, (s, e) ∉ wf_intelligence_calculate_song_entries c now songs) ∧
    (∀ s ∈ songs, wf_song_entry_total c now s = 0 →
      (s, 1) ∈ wf_intelligence_calculate_song_entries c now songs) := by
  unfold wf_intelligence_calculate_song_entries
  refine ⟨?_, ?_, ?_⟩
  · intro p hp
    rw [List.mem_filterMap] at hp
    obtain ⟨a, -, hfa⟩ := hp
    by_cases hneg : wf_song_entry_total c now a < 0
    · rw [if_pos hneg] at hfa
      exact absurd hfa (by simp)
    · rw [if_neg hneg] at hfa
      by_cases hzero : wf_song_entry_total c now a = 0
      · rw [if_pos hzero] at hfa
        rw [← Option.some.inj hfa]
      · rw [if_neg hzero] at hfa
        rw [← Option.some.inj hfa]
        show 1 ≤ wf_song_entry_total c now a
        omega
  · intro s hs e hmem
    rw [List.mem_filterMap] at hmem
    obtain ⟨a, -, hfa⟩ := hmem
    by_cases hneg : wf_song_entry_total c now a < 0
    · rw [if_pos hneg] at hfa
      exact absurd hfa (by simp)
    · rw [if_neg hneg] at hfa
      have ha : a = s := by
        by_cases hzero : wf_song_entry_total c now a = 0
        · rw [if_pos hzero] at hfa
          exact congrArg Prod.fst (Option.some.inj hfa)
        · rw [if_neg hzero] at hfa
          exact congrArg Prod.fst (Option.some.inj hfa)
      rw [ha] at hneg
      exact absurd hs hneg
  · intro s hs h0
    rw [List.mem_filterMap]
    exact ⟨s, hs, by rw [if_neg (by omega), if_pos h0]⟩

/-- Witness for C6: under a container with a negative rating factor, a rated
song has a negative total and is absent from the weighted-entry list, while
an unrated song has total zero and appears with entry count 1. -/
theorem C6_weighted_entries_invariant_witness :
    wf_song_entry_total c6_scenario_container 0 c6_neg_song < 0 ∧
    (c6_neg_song, 5) ∉ wf_intelligence_calculate_song_entries c6_scenario_container 0
      [c6_neg_song, c6_zero_song] ∧
    wf_song_entry_total c6_scenario_container 0 c6_zero_song = 0 ∧
    (c6_zero_song, 1) ∈ wf_intelligence_calculate_song_entries c6_scenario_container 0
      [c6_neg_song, c6_zero_song] ∧
    1 ≤ ((c6_zero_song, 1) : WfSong × Int).2 :=
  ⟨by decide,
   (C6_weighted_entries_invariant c6_scenario_container 0
     [c6_neg_song, c6_zero_song]).2.1 c6_neg_song (by decide) 5,
   by decide,
   (C6_weighted_entries_invariant c6_scenario_container 0
     [c6_neg_song, c6_zero_song]).2.2 c6_zero_song (by decide) (by decide),
   (C6_weighted_entries_invariant c6_scenario_container 0
     [c6_neg_song, c6_zero_song]).1 (c6_zero_song, 1) (by decide)⟩

/-! ## Claim C7 -/

/-- C7: for valid inputs outside incognito mode, the stored score is the
plain mean of the old score and `played_fraction * 100` when the play count
is 0, and the play-count-weighted mean otherwise (the result lies within
`[0, 100]`, so the clamp is the identity). -/
theorem C7_score_update_formula (full_played_setting : ℚ) (playcount : Int)
    (old_score played_fraction : ℚ)
    (hf0 : 0 ≤ played_fraction) (hf1 : played_fraction ≤ 1)
    (ho0 : 0 ≤ old_score) (ho1 : old_score ≤ 100) (hpc : 0 ≤ playcount) :
    wf_stats_modify_and_update_score false full_played_setting playcount old_score
        played_fraction =
      if playcount = 0 then (old_score + played_fraction * 100) / 2
      else (old_score * playcount + played_fraction * 100) / (playcount + 1) := by
  have hsub : wf_full_played_substitution full_played_setting played_fraction =
      played_fraction := by
    unfold wf_full_played_substitution
    split_ifs with h1 h2
    · linarith
    · rfl
    · rfl
  have hpcq : playcount = 0 ∨ (1 : ℚ) ≤ (playcount : ℚ) := by
    rcases (by omega : playcount = 0 ∨ 1 ≤ playcount) with h | h
    · exact Or.inl h
    · exact Or.inr (by exact_mod_cast h)
  have hp100 : 0 ≤ played_fraction * 100 := by positivity
  have hform0 : 0 ≤ wf_score_formula playcount old_score played_fraction := by
    unfold wf_score_formula
    split_ifs with h
    · positivity
    · have hq : (1 : ℚ) ≤ (playcount : ℚ) := hpcq.resolve_left (by omega)
      apply div_nonneg _ (by linarith)
      have : 0 ≤ old_score * (playcount : ℚ) := mul_nonneg ho0 (by linarith)
      linarith
  have hform100 : wf_score_formula playcount old_score played_fraction ≤ 100 := by
    unfold wf_score_formula
    split_ifs with h
    · rw [div_le_iff₀ (by norm_num : (0 : ℚ) < 2)]
      linarith
    · have hq : (1 : ℚ) ≤ (playcount : ℚ) := hpcq.resolve_left (by omega)
      rw [div_le_iff₀ (by linarith : (0 : ℚ) < (playcount : ℚ) + 1)]
      have h1 : old_score * (playcount : ℚ) ≤ 100 * (playcount : ℚ) :=
        mul_le_mul_of_nonneg_right ho1 (by linarith)
      linarith
  have hclamp : max 0 (min (wf_score_formula playcount old_score played_fraction) 100) =
      wf_score_formula playcount old_score played_fraction := by
    rw [min_eq_left hform100, max_eq_right hform0]
  have hzero : wf_score_formula playcount old_score played_fraction = 0 →
      old_score = 0 := by
    unfold wf_score_formula
    split_ifs with h
    · intro hz
      have h2 := (div_eq_zero_iff.mp hz).resolve_right (by norm_num : (2 : ℚ) ≠ 0)
      linarith
    · intro hz
      have hq : (1 : ℚ) ≤ (playcount : ℚ) := hpcq.resolve_left (by omega)
      have hden : ((playcount : ℚ) + 1) ≠ 0 := by linarith
      have hnum := (div_eq_zero_iff.mp hz).resolve_right hden
      have hnn : 0 ≤ old_score * (playcount : ℚ) := mul_nonneg ho0 (by linarith)
      have hms : old_score * (playcount : ℚ) = 0 := by linarith
      rcases mul_eq_zero.mp hms with h0 | h0
      · exact h0
      · linarith
  have hif : (if playcount = 0 then (old_score + played_fraction * 100) / 2
      else (old_score * playcount + played_fraction * 100) / (playcount + 1)) =
      wf_score_formula playcount old_score played_fraction := by
    unfold wf_score_formula
    rcases (by omega : playcount = 0 ∨ ¬playcount ≤ 0) with h | h
    · rw [if_pos h, if_pos (by omega)]
    · rw [if_neg (by omega), if_neg h]
  unfold wf_stats_modify_and_update_score
  rw [if_neg (by simp), if_neg (by push_neg; exact ⟨hf0, hf1⟩),
    if_neg (by push_neg; exact ⟨ho0, ho1⟩), hsub, hclamp, hif]
  unfold wf_stats_update_score
  rw [if_neg (by intro heq; rw [heq] at hform0; norm_num at hform0)]
  by_cases hz : wf_score_formula playcount old_score played_fraction = 0
  · rw [if_neg (by simp [hz]), if_pos (by norm_num), add_zero, ite_self, hz]
    exact hzero hz
  · rw [if_pos ⟨hz, hform0, hform100⟩]

/-- Witness for C7: play count 0, old score 50, fraction 1.0 yields exactly
75. -/
theorem C7_score_update_formula_witness :
    wf_stats_modify_and_update_score false (4/5) 0 50 1 = 75 := by
  have h := C7_score_update_formula (4/5) 0 50 1 (by norm_num) (le_refl 1)
    (by norm_num) (by norm_num) (le_refl 0)
  rw [h]
  norm_num

/-! ## Claim C8 -/

/-- C8: with incognito enabled, recording a play/skip event through
`wf_song_manager_add_played_song` leaves every statistic of the track —
rating, score, play count, skip count, last played — unchanged, for every
value of `played_fraction`. -/
theorem C8_incognito_gate (st : WfSongManagerState) (settings : WfSettings)
    (now : Int) (song : WfSong) (played_fraction : ℚ) (skip_score_update : Bool)
    (h : st.incognito = true) :
    (wf_song_manager_add_played_song st settings now song played_fraction
        skip_score_update).2 = song := by
  unfold wf_song_manager_add_played_song
  split
  · rfl
  · simp [h]

/-- Witness for C8: incognito state, fraction one half, song fully intact. -/
theorem C8_incognito_gate_witness :
    c8_scenario_state.incognito = true ∧
    (wf_song_manager_add_played_song c8_scenario_state default_settings 1000
        (mkRatedSong 1 80) (1/2) false).2 = mkRatedSong 1 80 :=
  ⟨rfl, C8_incognito_gate c8_scenario_state default_settings 1000
    (mkRatedSong 1 80) (1/2) false rfl⟩

/-! ## Claim C9 -/

/-- C9: the claim states that for every limit at least 1 the trim operation
keeps exactly the first `min(length, limit)` items.  The code contradicts
this (and its own single-item-case comment): with limit 1, the node at index
0 is the head, the early-return for `list == last_node` fires, and a two-item
list is returned untrimmed instead of being cut to its first item. -/
theorem C9_trim_limit_one_untrimmed :
    wf_song_manager_trim_list_length [mkRatedSong 1 10, mkRatedSong 2 20] 1 =
      [mkRatedSong 1 10, mkRatedSong 2 20] ∧
    wf_song_manager_trim_list_length [mkRatedSong 1 10, mkRatedSong 2 20] 1 ≠
      [mkRatedSong 1 10] := by
  constructor
  · rfl
  · decide

/-! ## Claim C10 -/

/-- C10: when a played track with artist hash 0 is recorded, the
recent-artists list becomes empty — previously recorded hashes are discarded
rather than kept — because `wf_song_manager_add_recent_artist` returns the
empty list instead of its input when the hash is 0. -/
theorem C10_zero_artist_clears_recents (st : WfSongManagerState)
    (settings : WfSettings) (now : Int) (song : WfSong) (played_fraction : ℚ)
    (skip_score_update : Bool) (hhash : song.artistHash = 0)
    (h0 : 0 ≤ played_fraction) (h1 : played_fraction ≤ 1) :
    (wf_song_manager_add_played_song st settings now song played_fraction
        skip_score_update).1.artists = [] := by
  unfold wf_song_manager_add_played_song
  rw [if_neg (by push_neg; exact ⟨h0, h1⟩)]
  simp [wf_song_manager_add_recent_artist, hhash]

/-- Witness for C10: a state holding three recorded artist hashes loses all
of them when a song without an artist is recorded. -/
theorem C10_zero_artist_clears_recents_witness :
    (mkRatedSong 4 60).artistHash = 0 ∧ (0 : ℚ) ≤ 1 ∧ (1 : ℚ) ≤ 1 ∧
    (wf_song_manager_add_played_song c10_scenario_state default_settings 1000
        (mkRatedSong 4 60) 1 false).1.artists = [] :=
  ⟨rfl, by norm_num, le_refl 1,
    C10_zero_artist_clears_recents c10_scenario_state default_settings 1000
      (mkRatedSong 4 60) 1 false rfl (by norm_num) (le_refl 1)⟩

end Woofer
